import Mathlib

/-!
Verification of the combat-log recorder core (event decoder, recording state,
orchestrating parser, recording processor, file manager, dungeon monitor)
against its natural-language specification.  Python sources are shallowly
embedded: machine time is `Nat` (seconds), fallible operations return
`Option`, caught exceptions become explicit branches, and external effects
(recorder control, file system) are recorded as explicit actions driven by
oracle structures.
-/

namespace WowRecorder

/-! ## Python string helpers -/

/-- Characters treated as whitespace by Python `str.strip()` (ASCII subset). -/
def pyIsSpace (c : Char) : Bool :=
  c == ' ' || c == '\t' || c == '\n' || c == '\r' ||
  c == Char.ofNat 11 || c == Char.ofNat 12

/-- Python `str.strip()` on a character list. -/
def pyStrip (l : List Char) : List Char :=
  (((l.dropWhile pyIsSpace).reverse).dropWhile pyIsSpace).reverse

/-- Python `str.upper()` (ASCII). -/
def pyUpper (l : List Char) : List Char := l.map Char.toUpper

/-- Python `str.lower()` (ASCII). -/
def pyLowerChars (l : List Char) : List Char := l.map Char.toLower

/-- Digits-only parse of a nonempty decimal numeral. -/
def digitsToNat? (l : List Char) : Option Nat :=
  if l ≠ [] && l.all Char.isDigit then
    some (l.foldl (fun acc c => acc * 10 + (c.toNat - 48)) 0)
  else none

/-- Python `int(s)`: strip whitespace, optional sign, decimal digits;
anything else raises `ValueError`, modelled as `none`. -/
def pyInt (s : String) : Option Int :=
  match pyStrip s.data with
  | [] => none
  | c :: rest =>
    if c == '+' then (digitsToNat? rest).map Int.ofNat
    else if c == '-' then (digitsToNat? rest).map (fun n => -(n : Int))
    else (digitsToNat? (c :: rest)).map Int.ofNat

/-- `needle` occurs at the start of `hay`. -/
def startsWithChars : List Char → List Char → Bool
  | [], _ => true
  | _ :: _, [] => false
  | a :: as, b :: bs => a == b && startsWithChars as bs

/-- Python substring test `needle in hay`. -/
def hasSub : List Char → List Char → Bool
  | hay, needle =>
    if startsWithChars needle hay then true
    else match hay with
      | [] => false
      | _ :: t => hasSub t needle

/-! ## Event decoder (src/combat_parser.py, `CombatEvent._parse_line`) -/

/-- Python `raw_line.split("  ", 1)`: split at the first run of two
consecutive spaces; `none` models the `ValueError` raised by unpacking
when the separator is absent. -/
def splitTwoSpace : List Char → Option (List Char × List Char)
  | [] => none
  | [_] => none
  | c1 :: c2 :: rest =>
    if c1 == ' ' && c2 == ' ' then some ([], rest)
    else (splitTwoSpace (c2 :: rest)).map (fun p => (c1 :: p.1, p.2))

/-- States of the `csv` module's default-dialect field machine. -/
inductive CsvSt where
  | startF | inF | inQ | quoteInQ
deriving DecidableEq, Repr

/-- The double-quote character. -/
def quoteChar : Char := Char.ofNat 34

/-- One record of Python `csv.reader` (default dialect, non-strict,
doubled-quote escaping); the record ends at an unquoted newline or at end
of input.  `cur` and `acc` are reversed accumulators. -/
def csvRun : List Char → CsvSt → List Char → List (List Char) → List (List Char)
  | [], _, cur, acc => (cur.reverse :: acc).reverse
  | c :: rest, CsvSt.startF, cur, acc =>
    if c == ',' then csvRun rest CsvSt.startF [] (cur.reverse :: acc)
    else if c == quoteChar then csvRun rest CsvSt.inQ cur acc
    else if c == '\n' || c == '\r' then (cur.reverse :: acc).reverse
    else csvRun rest CsvSt.inF (c :: cur) acc
  | c :: rest, CsvSt.inF, cur, acc =>
    if c == ',' then csvRun rest CsvSt.startF [] (cur.reverse :: acc)
    else if c == '\n' || c == '\r' then (cur.reverse :: acc).reverse
    else csvRun rest CsvSt.inF (c :: cur) acc
  | c :: rest, CsvSt.inQ, cur, acc =>
    if c == quoteChar then csvRun rest CsvSt.quoteInQ cur acc
    else csvRun rest CsvSt.inQ (c :: cur) acc
  | c :: rest, CsvSt.quoteInQ, cur, acc =>
    if c == quoteChar then csvRun rest CsvSt.inQ (quoteChar :: cur) acc
    else if c == ',' then csvRun rest CsvSt.startF [] (cur.reverse :: acc)
    else if c == '\n' || c == '\r' then (cur.reverse :: acc).reverse
    else csvRun rest CsvSt.inF (c :: cur) acc

/-- `next(csv.reader(io.StringIO(rest)))`: `none` models `StopIteration`
on empty input; a leading newline is the blank first line, giving the
empty record. -/
def csvFirstRecord : List Char → Option (List (List Char))
  | [] => none
  | c :: rest =>
    if c == '\n' || c == '\r' then some []
    else some (csvRun (c :: rest) CsvSt.startF [] [])

/-- Parsed combat log event (`CombatEvent` in src/combat_parser.py). -/
structure CombatEventData where
  raw_line : String
  timestamp : String
  event_type : String
  fields : List String
deriving DecidableEq, Repr

/-- `CombatEvent.__init__`/`_parse_line`: split timestamp from CSV data,
parse one CSV record, take the first field stripped and uppercased as the
event type; `ValueError`/`StopIteration` are caught, leaving defaults. -/
def combatEvent (line : String) : CombatEventData :=
  match splitTwoSpace line.data with
  | none => ⟨line, "", "", []⟩
  | some (ts, rest) =>
    match csvFirstRecord rest with
    | none => ⟨line, String.mk (pyStrip ts), "", []⟩
    | some [] => ⟨line, String.mk (pyStrip ts), "", []⟩
    | some (f0 :: fs) =>
      ⟨line, String.mk (pyStrip ts), String.mk (pyUpper (pyStrip f0)),
        (f0 :: fs).map String.mk⟩

/-- `CombatEvent.is_valid`. -/
def CombatEventData.is_valid (e : CombatEventData) : Bool :=
  e.event_type != ""

/-- `CombatEvent.is_encounter_start`. -/
def CombatEventData.is_encounter_start (e : CombatEventData) : Bool :=
  e.event_type == "ENCOUNTER_START"

/-- `CombatEvent.is_encounter_end`. -/
def CombatEventData.is_encounter_end (e : CombatEventData) : Bool :=
  e.event_type == "ENCOUNTER_END"

/-- Modelled from the spec: the event-kind test for `CHALLENGE_MODE_START`
(`combat_parser/events.py` is not under src; §4.1 lists the recognized
kinds, classified by the first field uppercased). -/
def CombatEventData.is_dungeon_start (e : CombatEventData) : Bool :=
  e.event_type == "CHALLENGE_MODE_START"

/-- Modelled from the spec: the event-kind test for `CHALLENGE_MODE_END`. -/
def CombatEventData.is_dungeon_end (e : CombatEventData) : Bool :=
  e.event_type == "CHALLENGE_MODE_END"

/-- Modelled from the spec: the event-kind test for `ZONE_CHANGE`. -/
def CombatEventData.is_zone_change (e : CombatEventData) : Bool :=
  e.event_type == "ZONE_CHANGE"

/-! ## Activity metadata (BossInfo / DungeonInfo) -/

/-- `BossInfo` dataclass (src/combat_parser.py). -/
structure BossInfo where
  boss_id : Int
  name : String
  difficulty_id : Int
  instance_id : Int
  timestamp : String := ""
deriving DecidableEq, Repr

/-- `BossInfo.formatted_name`: strip the characters `<>:"/\|?*`, replace
spaces by underscores, drop apostrophes and commas, then `str.strip()`. -/
def pyFormattedName (name : String) : String :=
  let specials : List Char :=
    ['<', '>', ':', quoteChar, '/', '\\', '|', '?', '*']
  let s1 := name.data.filter (fun c => !(specials.contains c))
  let s2 := s1.map (fun c => if c == ' ' then '_' else c)
  let s3 := s2.filter (fun c => c != Char.ofNat 39)
  let s4 := s3.filter (fun c => c != ',')
  String.mk (pyStrip s4)

/-- `BossInfo.formatted_name`. -/
def BossInfo.formatted_name (b : BossInfo) : String := pyFormattedName b.name

/-- Modelled from the spec: `DungeonInfo` (§3; `combat_parser/events.py` is
not under src) — numeric dungeon identifier, display name, keystone level,
origin timestamp. -/
structure DungeonInfo where
  dungeon_id : Int
  name : String
  dungeon_level : Int
  timestamp : String := ""
deriving DecidableEq, Repr

/-- Modelled from the spec: `DungeonInfo.formatted_name`, the same
filesystem-safe derivation as for `BossInfo` (§3). -/
def DungeonInfo.formatted_name (d : DungeonInfo) : String :=
  pyFormattedName d.name

/-- `CombatEvent.get_boss_info` (src/combat_parser.py): requires an
`ENCOUNTER_START` event with at least 6 fields; integer parse failure
(`ValueError`) yields `none`. -/
def CombatEventData.get_boss_info (e : CombatEventData) : Option BossInfo :=
  if !e.is_encounter_start || e.fields.length < 6 then none
  else
    match pyInt (e.fields.getD 1 ""), pyInt (e.fields.getD 3 ""),
          pyInt (e.fields.getD 5 "") with
    | some b, some d, some i =>
      some ⟨b, e.fields.getD 2 "", d, i, e.timestamp⟩
    | _, _, _ => none

/-- Modelled from the spec: `CombatEvent.get_dungeon_info` for
`CHALLENGE_MODE_START` (§4.1 "analogous positional extraction with the
same missing-field ⇒ ignore policy"; `combat_parser/events.py` is not
under src).  Extracts name, dungeon id and keystone level. -/
def CombatEventData.get_dungeon_info (e : CombatEventData) : Option DungeonInfo :=
  if !e.is_dungeon_start || e.fields.length < 4 then none
  else
    match pyInt (e.fields.getD 2 ""), pyInt (e.fields.getD 3 "") with
    | some did, some lvl => some ⟨did, e.fields.getD 1 "", lvl, e.timestamp⟩
    | _, _ => none

/-- `ENCOUNTER_END` kill flag: field index 5 compared to the literal "1",
defaulting to false with fewer fields (inline in src/combat_parser.py
`_handle_encounter_end`; exposed as `get_encounter_end_info` by the
events module). -/
def CombatEventData.get_encounter_end_info (e : CombatEventData) : Bool :=
  if e.fields.length ≥ 6 then e.fields.getD 5 "" == "1" else false

/-- Modelled from the spec: `CombatEvent.get_dungeon_end_info`
success flag for `CHALLENGE_MODE_END` (§4.1, analogous positional
extraction, missing field ⇒ false). -/
def CombatEventData.get_dungeon_end_info (e : CombatEventData) : Bool :=
  if e.fields.length ≥ 3 then e.fields.getD 2 "" == "1" else false

/-! ## Recording state (src/state_manager.py, `RecordingState`) -/

/-- The mutable record of `RecordingState`.  Times are machine seconds
(`time.time()`), `none` standing for Python `None`. -/
structure RecordingState where
  recording : Bool
  recording_start_time : Option Nat
  encounter_active : Bool
  boss_id : Option Int
  boss_name : Option String
  difficulty_id : Option Int
  instance_id : Option Int
  encounter_start_time : Option Nat
  dungeon_active : Bool
  dungeon_id : Option Int
  dungeon_name : Option String
  dungeon_level : Option Int
  dungeon_start_time : Option Nat
  dungeon_start_timestamp : Option String
  last_activity_time : Option Nat
deriving DecidableEq, Repr

/-- `RecordingState._reset_all` / `__init__`: every field at its default. -/
def initialRecordingState : RecordingState where
  recording := false
  recording_start_time := none
  encounter_active := false
  boss_id := none
  boss_name := none
  difficulty_id := none
  instance_id := none
  encounter_start_time := none
  dungeon_active := false
  dungeon_id := none
  dungeon_name := none
  dungeon_level := none
  dungeon_start_time := none
  dungeon_start_timestamp := none
  last_activity_time := none

/-- `RecordingState.start_encounter`: unconditionally records the boss
fields and sets the encounter start time to now. -/
def RecordingState.start_encounter (st : RecordingState) (now : Nat)
    (boss_id : Int) (boss_name : String) (difficulty_id : Int)
    (instance_id : Int) : RecordingState :=
  { st with
    encounter_active := true
    boss_id := some boss_id
    boss_name := some boss_name
    difficulty_id := some difficulty_id
    instance_id := some instance_id
    encounter_start_time := some now }

/-- `RecordingState.start_dungeon`. -/
def RecordingState.start_dungeon (st : RecordingState) (now : Nat)
    (dungeon_id : Int) (dungeon_name : String) (dungeon_level : Int)
    (timestamp : String) : RecordingState :=
  { st with
    dungeon_active := true
    dungeon_id := some dungeon_id
    dungeon_name := some dungeon_name
    dungeon_level := some dungeon_level
    dungeon_start_time := some now
    dungeon_start_timestamp := some timestamp
    last_activity_time := some now }

/-- `RecordingState.start_recording`. -/
def RecordingState.start_recording (st : RecordingState) (now : Nat) :
    RecordingState :=
  { st with recording := true, recording_start_time := some now }

/-- `RecordingState.reset`: back to `_reset_all` defaults. -/
def RecordingState.reset (_st : RecordingState) : RecordingState :=
  initialRecordingState

/-- `RecordingState.update_activity`: unconditionally stamps
`last_activity_time = now`. -/
def RecordingState.update_activity (st : RecordingState) (now : Nat) :
    RecordingState :=
  { st with last_activity_time := some now }

/-- Python truthiness of an optional timestamp: `None` and `0` are falsy. -/
def pyFalsyTime : Option Nat → Bool
  | none => true
  | some t => t == 0

/-- `RecordingState.is_dungeon_idle`: false unless a dungeon is active and
`last_activity_time` is truthy; otherwise compares the idle time with the
timeout. -/
def RecordingState.is_dungeon_idle (st : RecordingState) (now : Nat)
    (timeout_seconds : Nat) : Bool :=
  if !st.dungeon_active || pyFalsyTime st.last_activity_time then false
  else
    match st.last_activity_time with
    | none => false
    | some t => decide ((now : Int) - (t : Int) > (timeout_seconds : Int))

/-- `RecordingState.is_recording` property. -/
def RecordingState.is_recording (st : RecordingState) : Bool :=
  st.recording && (st.encounter_active || st.dungeon_active)

/-- `RecordingState.get_encounter_duration` (truthy start time required,
as in the Python conjunctions). -/
def RecordingState.get_encounter_duration (st : RecordingState) (now : Nat) :
    Nat :=
  if st.encounter_active && !pyFalsyTime st.encounter_start_time then
    now - st.encounter_start_time.getD 0
  else if st.dungeon_active && !pyFalsyTime st.dungeon_start_time then
    now - st.dungeon_start_time.getD 0
  else 0

/-! ## Configuration -/

/-- Read-only configuration lookups consumed by the core.
`RECORDING_EXTENSION`, `RENAME_DELAY`, `MAX_RENAME_ATTEMPTS` and
`BOSS_NAME_OVERRIDES` mirror the getters of src/config_manager.py.
Modelled from the spec: `is_difficulty_enabled`, `RECORD_MPLUS`,
`MIN_RECORDING_DURATION`, `DELETE_SHORT_RECORDINGS` and
`DUNGEON_TIMEOUT_SECONDS` (§6 configuration contract) are referenced by
the src code and by run.py/main.py but their `ConfigManager` definitions
are not under src. -/
structure Config where
  RECORDING_EXTENSION : String
  RENAME_DELAY : Nat
  MAX_RENAME_ATTEMPTS : Nat
  BOSS_NAME_OVERRIDES : Int → Option String
  is_difficulty_enabled : Int → Bool
  RECORD_MPLUS : Bool
  MIN_RECORDING_DURATION : Nat
  DELETE_SHORT_RECORDINGS : Bool
  DUNGEON_TIMEOUT_SECONDS : Nat

/-! ## External effects and oracles -/

/-- Externally visible operations issued by the recording pipeline. -/
inductive Action where
  | sleep (seconds : Nat)
  | emit (event_type : String)
  | obsStart
  | obsStop
  | findLatest
  | stabilityCheck (path : String)
  | deleteFile (path : String)
  | renameFile (src target : String)
deriving DecidableEq, Repr

/-- Oracle for the OBS recorder: outcomes of `start_recording()` and
`stop_recording()`. -/
structure ObsRec where
  startOk : Bool
  stopOk : Bool

/-- Oracle for the recording directory: the latest video file reported by
`find_latest_recording`, which candidate filenames exist, the stability
verdict, and the latest file's mtime rendered by `strftime` as a date and
a time string. -/
structure FS where
  latest : Option String
  fileExists : String → Bool
  stable : Bool
  mtimeDate : String
  mtimeTime : String

/-! ## File manager (src/combat_parser/file_manager.py) -/

/-- `DIFFICULTY_NAMES.get(id, f"Difficulty_{id}")` (src/constants.py and
`_get_difficulty_name`). -/
def difficultyName (d : Int) : String :=
  if d == 1 then "Normal" else if d == 2 then "Heroic"
  else if d == 3 then "Mythic" else if d == 4 then "Mythic+"
  else if d == 5 then "Timewalking" else if d == 7 then "LFR"
  else if d == 9 then "40Player" else if d == 14 then "Normal"
  else if d == 15 then "Heroic" else if d == 16 then "Mythic"
  else if d == 17 then "LFR" else if d == 23 then "Mythic"
  else if d == 24 then "Timewalking" else if d == 33 then "Timewalking"
  else "Difficulty_" ++ toString d

/-- Identifying metadata attached to a recording, matching the optional
`boss_info`/`dungeon_info` arguments of the file manager. -/
inductive RecInfo where
  | boss (b : BossInfo)
  | dungeon (d : DungeonInfo)
deriving DecidableEq, Repr

/-- `RecordingFileManager.generate_filename`:
`{date}_{time}_{name}_{label}{extension}` with the difficulty label for a
boss, `M+{level}` for a dungeon, and the generic `Recording` fallback. -/
def generate_filename (cfg : Config) (info : Option RecInfo)
    (dateS timeS : String) : String :=
  let base :=
    match info with
    | some (RecInfo.boss b) =>
      dateS ++ "_" ++ timeS ++ "_" ++ b.formatted_name ++ "_" ++
        difficultyName b.difficulty_id
    | some (RecInfo.dungeon d) =>
      dateS ++ "_" ++ timeS ++ "_" ++ d.formatted_name ++ "_M+" ++
        toString d.dungeon_level
    | none => dateS ++ "_" ++ timeS ++ "_Recording"
  base ++ cfg.RECORDING_EXTENSION

/-- The `while path.exists() and counter <= MAX_RENAME_ATTEMPTS` loop
shared by the three duplicate handlers: `regen n` is the candidate
filename for attempt counter `n`; fuel bounds the recursion and is chosen
so the loop always exits through its own condition. -/
def handleDupLoop (ex : String → Bool) (maxAttempts : Nat)
    (regen : Nat → String) : Nat → Nat → String → String
  | 0, _, path => path
  | fuel + 1, counter, path =>
    if ex path && decide (counter ≤ maxAttempts) then
      handleDupLoop ex maxAttempts regen fuel (counter + 1) (regen counter)
    else path

/-- `RecordingFileManager._handle_duplicate_filename`: append
`_attempt{N}` to the boss name while the candidate exists; if the final
candidate still exists, fall back to the original candidate path. -/
def handle_duplicate_filename (cfg : Config) (ex : String → Bool)
    (path : String) (info : BossInfo) (dateS timeS : String) : String :=
  let res := handleDupLoop ex cfg.MAX_RENAME_ATTEMPTS
    (fun counter =>
      generate_filename cfg
        (some (RecInfo.boss { info with
          name := info.name ++ "_attempt" ++ toString counter }))
        dateS timeS)
    (cfg.MAX_RENAME_ATTEMPTS + 1) 1 path
  if ex res then path else res

/-- `RecordingFileManager._handle_duplicate_dungeon_filename`. -/
def handle_duplicate_dungeon_filename (cfg : Config) (ex : String → Bool)
    (path : String) (info : DungeonInfo) (dateS timeS : String) : String :=
  let res := handleDupLoop ex cfg.MAX_RENAME_ATTEMPTS
    (fun counter =>
      generate_filename cfg
        (some (RecInfo.dungeon { info with
          name := info.name ++ "_attempt" ++ toString counter }))
        dateS timeS)
    (cfg.MAX_RENAME_ATTEMPTS + 1) 1 path
  if ex res then path else res

/-- `RecordingFileManager._handle_duplicate_generic_filename`. -/
def handle_duplicate_generic_filename (cfg : Config) (ex : String → Bool)
    (path : String) (dateS timeS : String) : String :=
  let res := handleDupLoop ex cfg.MAX_RENAME_ATTEMPTS
    (fun counter =>
      dateS ++ "_" ++ timeS ++ "_Recording_" ++ toString counter ++
        cfg.RECORDING_EXTENSION)
    (cfg.MAX_RENAME_ATTEMPTS + 1) 1 path
  if ex res then path else res

/-- `RecordingFileManager.rename_recording`: generate the target filename
from the file's mtime, resolve duplicates, then `Path.rename`.  POSIX
`rename` semantics: the call succeeds, silently replacing the target if a
file with that name already exists. -/
def rename_recording (cfg : Config) (fs : FS) (recording_path : String)
    (info : Option RecInfo) : Option String × List Action :=
  let dateS := fs.mtimeDate
  let timeS := fs.mtimeTime
  let new_path := generate_filename cfg info dateS timeS
  let final :=
    match info with
    | some (RecInfo.boss b) =>
      handle_duplicate_filename cfg fs.fileExists new_path b dateS timeS
    | some (RecInfo.dungeon d) =>
      handle_duplicate_dungeon_filename cfg fs.fileExists new_path d dateS timeS
    | none =>
      handle_duplicate_generic_filename cfg fs.fileExists new_path dateS timeS
  (some final, [Action.renameFile recording_path final])

/-- `RecordingFileManager.delete_recording`: returns false with no effect
when the file is already gone, otherwise unlinks it. -/
def delete_recording (fs : FS) (recording_path : String) :
    Bool × List Action :=
  if !fs.fileExists recording_path then (false, [])
  else (true, [Action.deleteFile recording_path])

/-- `RecordingFileManager.validate_file_stable`: false if the file is
missing; otherwise the before/after size comparison, abstracted by the
oracle's verdict. -/
def validate_file_stable (fs : FS) (file_path : String) :
    Bool × List Action :=
  if !fs.fileExists file_path then (false, [Action.stabilityCheck file_path])
  else (fs.stable, [Action.stabilityCheck file_path])

/-! ## Recording processor (src/combat_parser/recording_processor.py) -/

/-- `RecordingProcessor.process_encounter_start`: skip when the difficulty
is disabled, else ask OBS to start recording. -/
def process_encounter_start (cfg : Config) (obs : ObsRec) (boss_info : BossInfo) :
    Bool × List Action :=
  if !cfg.is_difficulty_enabled boss_info.difficulty_id then (false, [])
  else if !obs.startOk then (false, [Action.obsStart])
  else (true, [Action.obsStart])

/-- `RecordingProcessor.process_dungeon_start`: skip when Mythic+ is
disabled, else ask OBS to start recording. -/
def process_dungeon_start (cfg : Config) (obs : ObsRec)
    (_dungeon_info : DungeonInfo) : Bool × List Action :=
  if !cfg.RECORD_MPLUS then (false, [])
  else if !obs.startOk then (false, [Action.obsStart])
  else (true, [Action.obsStart])

/-- `RecordingProcessor._handle_short_recording`: keep the file when
deletion of short recordings is disabled, otherwise locate the latest
recording and delete it. -/
def handle_short_recording (cfg : Config) (fs : FS) (_duration : Nat) :
    Bool × List Action :=
  if !cfg.DELETE_SHORT_RECORDINGS then (true, [])
  else
    match fs.latest with
    | some p =>
      let r := delete_recording fs p
      (r.1, Action.findLatest :: r.2)
    | none => (false, [Action.findLatest])

/-- `RecordingProcessor._process_recording_file`: short recordings go to
the short-recording policy; otherwise locate the latest file, validate
stability, and rename. -/
def process_recording_file (cfg : Config) (fs : FS) (info : Option RecInfo)
    (recording_duration : Nat) : Bool × List Action :=
  if recording_duration < cfg.MIN_RECORDING_DURATION then
    handle_short_recording cfg fs recording_duration
  else
    match fs.latest with
    | none => (false, [Action.findLatest])
    | some p =>
      let v := validate_file_stable fs p
      if !v.1 then (false, Action.findLatest :: v.2)
      else
        let r := rename_recording cfg fs p info
        (r.1.isSome, Action.findLatest :: v.2 ++ r.2)

/-- `RecordingProcessor.process_encounter_end`: disabled difficulty ⇒
false; else stop OBS, wait the rename delay, then process the file. -/
def process_encounter_end (cfg : Config) (obs : ObsRec) (fs : FS)
    (boss_info : BossInfo) (recording_duration : Nat) : Bool × List Action :=
  if !cfg.is_difficulty_enabled boss_info.difficulty_id then (false, [])
  else if !obs.stopOk then (false, [Action.obsStop])
  else
    let r := process_recording_file cfg fs (some (RecInfo.boss boss_info))
      recording_duration
    (r.1, Action.obsStop :: Action.sleep cfg.RENAME_DELAY :: r.2)

/-- `RecordingProcessor.process_dungeon_end`. -/
def process_dungeon_end (cfg : Config) (obs : ObsRec) (fs : FS)
    (dungeon_info : DungeonInfo) (recording_duration : Nat) :
    Bool × List Action :=
  if !cfg.RECORD_MPLUS then (false, [])
  else if !obs.stopOk then (false, [Action.obsStop])
  else
    let r := process_recording_file cfg fs
      (some (RecInfo.dungeon dungeon_info)) recording_duration
    (r.1, Action.obsStop :: Action.sleep cfg.RENAME_DELAY :: r.2)

/-! ## Orchestrating parser (src/combat_parser/parser.py) -/

/-- A background task spawned by the synchronous decode path. -/
inductive SpawnedTask where
  | encounterStart (info : BossInfo)
  | encounterEnd (info : BossInfo) (duration : Nat)
  | dungeonStart (info : DungeonInfo)
  | dungeonEnd (info : DungeonInfo) (duration : Nat) (reason : String)
deriving DecidableEq, Repr

/-- Result of the synchronous decode-and-dispatch path for one line: the
new state, the actions performed on that path, and the background tasks
spawned. -/
structure SyncStep where
  state : RecordingState
  actions : List Action
  tasks : List SpawnedTask
deriving DecidableEq, Repr

/-- Python `x or default` for an optional string (both `None` and the
empty string fall back). -/
def pyOrStr (s : Option String) (dflt : String) : String :=
  match s with
  | none => dflt
  | some v => if v == "" then dflt else v

/-- `CombatParser._handle_encounter_start`: ignored while
`state.is_recording`; otherwise extract boss info, apply the configured
name override, start the encounter in state, spawn the recording-start
task and emit the start notification. -/
def handle_encounter_start (cfg : Config) (st : RecordingState) (now : Nat)
    (ev : CombatEventData) : SyncStep :=
  if st.is_recording then ⟨st, [], []⟩
  else
    match ev.get_boss_info with
    | none => ⟨st, [], []⟩
    | some bi0 =>
      let bi :=
        match cfg.BOSS_NAME_OVERRIDES bi0.boss_id with
        | some n => { bi0 with name := n }
        | none => bi0
      ⟨st.start_encounter now bi.boss_id bi.name bi.difficulty_id
          bi.instance_id,
        [Action.emit "ENCOUNTER_START"],
        [SpawnedTask.encounterStart bi]⟩

/-- `CombatParser._handle_encounter_end`: ignored unless an encounter is
active; captures metadata and duration from state, emits the end
notification, sleeps the 3-second grace period on the synchronous path,
spawns the end-processing task, and resets state synchronously. -/
def handle_encounter_end (_cfg : Config) (st : RecordingState) (now : Nat)
    (ev : CombatEventData) : SyncStep :=
  if !st.encounter_active then ⟨st, [], []⟩
  else
    let duration := st.get_encounter_duration now
    let bi : BossInfo :=
      ⟨st.boss_id.getD 0, pyOrStr st.boss_name "Unknown",
        st.difficulty_id.getD 0, st.instance_id.getD 0, ev.timestamp⟩
    ⟨st.reset, [Action.emit "ENCOUNTER_END", Action.sleep 3],
      [SpawnedTask.encounterEnd bi duration]⟩

/-- `CombatParser._handle_dungeon_start`: ignored while a dungeon is
already active; otherwise start the dungeon in state, spawn the
recording-start task and emit the start notification. -/
def handle_dungeon_start (_cfg : Config) (st : RecordingState) (now : Nat)
    (ev : CombatEventData) : SyncStep :=
  if st.dungeon_active then ⟨st, [], []⟩
  else
    match ev.get_dungeon_info with
    | none => ⟨st, [], []⟩
    | some di =>
      ⟨st.start_dungeon now di.dungeon_id di.name di.dungeon_level
          di.timestamp,
        [Action.emit "DUNGEON_START"],
        [SpawnedTask.dungeonStart di]⟩

/-- `CombatParser._handle_dungeon_end`: ignored unless a dungeon is
active; captures metadata and duration, emits the end notification,
sleeps the 3-second grace period on the synchronous path, spawns the
end-processing task, and resets state synchronously. -/
def handle_dungeon_end (_cfg : Config) (st : RecordingState) (now : Nat)
    (ev : CombatEventData) (reason : String) : SyncStep :=
  if !st.dungeon_active then ⟨st, [], []⟩
  else
    let duration := st.get_encounter_duration now
    let di : DungeonInfo :=
      ⟨st.dungeon_id.getD 0, pyOrStr st.dungeon_name "Unknown Dungeon",
        st.dungeon_level.getD 0, ev.timestamp⟩
    ⟨st.reset, [Action.emit "DUNGEON_END", Action.sleep 3],
      [SpawnedTask.dungeonEnd di duration reason]⟩

/-- `CombatParser._handle_zone_change`: during an active dungeon, if the
new zone name (field 2) does not contain the dungeon name
(case-insensitive), treat as a dungeon end with reason `zone_change`;
missing fields are ignored. -/
def handle_zone_change (cfg : Config) (st : RecordingState) (now : Nat)
    (ev : CombatEventData) : SyncStep :=
  if !st.dungeon_active then ⟨st, [], []⟩
  else if ev.fields.length ≥ 3 then
    let new_zone := ev.fields.getD 2 ""
    match st.dungeon_name with
    | none => ⟨st, [], []⟩
    | some current =>
      if current != "" &&
          !(hasSub (pyLowerChars new_zone.data) (pyLowerChars current.data)) then
        handle_dungeon_end cfg st now ev "zone_change"
      else ⟨st, [], []⟩
  else ⟨st, [], []⟩

/-- `CombatParser.process_line`: decode the line, drop it when invalid,
stamp dungeon activity, then dispatch with dungeons prioritized over
encounters. -/
def process_line (cfg : Config) (st : RecordingState) (now : Nat)
    (line : String) : SyncStep :=
  let ev := combatEvent line
  if !ev.is_valid then ⟨st, [], []⟩
  else
    let st1 := if st.dungeon_active then st.update_activity now else st
    if ev.is_dungeon_start then handle_dungeon_start cfg st1 now ev
    else if ev.is_dungeon_end then
      handle_dungeon_end cfg st1 now ev "dungeon_complete"
    else if ev.is_zone_change then handle_zone_change cfg st1 now ev
    else if ev.is_encounter_start then handle_encounter_start cfg st1 now ev
    else if ev.is_encounter_end then handle_encounter_end cfg st1 now ev
    else ⟨st1, [], []⟩

/-- `CombatParser._process_encounter_start_thread`: run the processor's
start step; on success mark the recording started in state. -/
def process_encounter_start_thread (cfg : Config) (obs : ObsRec)
    (st : RecordingState) (now : Nat) (boss_info : BossInfo) :
    RecordingState × List Action :=
  let r := process_encounter_start cfg obs boss_info
  (if r.1 then st.start_recording now else st, r.2)

/-- `CombatParser._process_dungeon_start_thread`. -/
def process_dungeon_start_thread (cfg : Config) (obs : ObsRec)
    (st : RecordingState) (now : Nat) (dungeon_info : DungeonInfo) :
    RecordingState × List Action :=
  let r := process_dungeon_start cfg obs dungeon_info
  (if r.1 then st.start_recording now else st, r.2)

/-- `CombatParser._process_encounter_end_thread`: run end processing and
notify the recording-saved callback exactly when the result is truthy and
a callback is registered.  Returns (result, actions, notified). -/
def process_encounter_end_thread (cfg : Config) (obs : ObsRec) (fs : FS)
    (boss_info : BossInfo) (duration : Nat) (hasSavedCb : Bool) :
    Bool × List Action × Bool :=
  let r := process_encounter_end cfg obs fs boss_info duration
  (r.1, r.2, r.1 && hasSavedCb)

/-- `CombatParser._process_dungeon_end_thread`. -/
def process_dungeon_end_thread (cfg : Config) (obs : ObsRec) (fs : FS)
    (dungeon_info : DungeonInfo) (duration : Nat) (hasSavedCb : Bool) :
    Bool × List Action × Bool :=
  let r := process_dungeon_end cfg obs fs dungeon_info duration
  (r.1, r.2, r.1 && hasSavedCb)

/-! ## Dungeon monitor (src/combat_parser/dungeon_monitor.py) -/

/-- One iteration of `DungeonMonitor._monitor_loop`: when a dungeon is
active and idle beyond the configured timeout, the registered timeout
callback is invoked.  Returns whether the callback was invoked. -/
def monitorTick (cfg : Config) (st : RecordingState) (now : Nat)
    (hasTimeoutCb : Bool) : Bool :=
  if st.dungeon_active then
    if st.is_dungeon_idle now cfg.DUNGEON_TIMEOUT_SECONDS then hasTimeoutCb
    else false
  else false

/-! ## Concrete fixtures used by witnesses and counterexamples -/

/-- A concrete configuration: difficulty 3 enabled, defaults elsewhere. -/
def testConfig : Config where
  RECORDING_EXTENSION := ".mp4"
  RENAME_DELAY := 3
  MAX_RENAME_ATTEMPTS := 10
  BOSS_NAME_OVERRIDES := fun _ => none
  is_difficulty_enabled := fun d => d == 3
  RECORD_MPLUS := true
  MIN_RECORDING_DURATION := 5
  DELETE_SHORT_RECORDINGS := true
  DUNGEON_TIMEOUT_SECONDS := 120

/-- A recorder whose start and stop calls succeed. -/
def testObs : ObsRec := ⟨true, true⟩

/-- Scenario A input line. -/
def scenarioALine : String :=
  "10:00:00  ENCOUNTER_START,1234,\"Test Boss\",3,0,2000"

/-- Scenario B input line. -/
def scenarioBLine : String :=
  "10:05:30  ENCOUNTER_END,1234,\"Test Boss\",3,5,1"

/-- State after a dungeon started at time 100 whose recorder start has not
succeeded (recording flag still false). -/
def dungeonActiveState : RecordingState :=
  initialRecordingState.start_dungeon 100 375 "Ara-Kara" 10 "20:00:00"

/-- State after a dungeon started at time 100 with the recording flag set. -/
def dungeonRecordingState : RecordingState :=
  dungeonActiveState.start_recording 101

/-- State after an encounter started at time 100. -/
def encounterActiveState : RecordingState :=
  initialRecordingState.start_encounter 100 1234 "Test Boss" 3 2000

/-! ## C4 — RecordingState.start_encounter guards -/

/-- C4 counterexample: with a dungeon already active, `start_encounter` is
not a no-op — it records the boss fields anyway, leaving both activities
active at once. -/
theorem c4_start_encounter_not_guarded :
    dungeonActiveState.dungeon_active = true ∧
    (dungeonActiveState.start_encounter 110 1234 "Test Boss" 3 2000).encounter_active
      = true ∧
    (dungeonActiveState.start_encounter 110 1234 "Test Boss" 3 2000).dungeon_active
      = true ∧
    dungeonActiveState.start_encounter 110 1234 "Test Boss" 3 2000 ≠
      dungeonActiveState := by
  refine ⟨rfl, rfl, rfl, ?_⟩
  decide

/-- C4 (amended): `RecordingState.start_encounter` unconditionally records
the boss fields and sets the encounter start time to now — even when an
encounter or dungeon is already active — and changes no other field; the
exclusivity check lives in the caller, not in `RecordingState`. -/
theorem c4_start_encounter_unconditional (st : RecordingState) (now : Nat)
    (bid : Int) (bname : String) (did iid : Int) :
    (st.start_encounter now bid bname did iid).encounter_active = true ∧
    (st.start_encounter now bid bname did iid).boss_id = some bid ∧
    (st.start_encounter now bid bname did iid).boss_name = some bname ∧
    (st.start_encounter now bid bname did iid).difficulty_id = some did ∧
    (st.start_encounter now bid bname did iid).instance_id = some iid ∧
    (st.start_encounter now bid bname did iid).encounter_start_time = some now ∧
    (st.start_encounter now bid bname did iid).recording = st.recording ∧
    (st.start_encounter now bid bname did iid).recording_start_time =
      st.recording_start_time ∧
    (st.start_encounter now bid bname did iid).dungeon_active =
      st.dungeon_active ∧
    (st.start_encounter now bid bname did iid).dungeon_id = st.dungeon_id ∧
    (st.start_encounter now bid bname did iid).dungeon_name = st.dungeon_name ∧
    (st.start_encounter now bid bname did iid).dungeon_level =
      st.dungeon_level ∧
    (st.start_encounter now bid bname did iid).dungeon_start_time =
      st.dungeon_start_time ∧
    (st.start_encounter now bid bname did iid).dungeon_start_timestamp =
      st.dungeon_start_timestamp ∧
    (st.start_encounter now bid bname did iid).last_activity_time =
      st.last_activity_time :=
  ⟨rfl, rfl, rfl, rfl, rfl, rfl, rfl, rfl, rfl, rfl, rfl, rfl, rfl, rfl, rfl⟩

/-! ## C9 — RecordingState.update_activity -/

/-- C9 counterexample: `update_activity` is not a no-op when no dungeon is
active — on the fresh state it still stamps `last_activity_time`. -/
theorem c9_update_activity_not_noop :
    initialRecordingState.dungeon_active = false ∧
    (initialRecordingState.update_activity 5).last_activity_time = some 5 ∧
    initialRecordingState.update_activity 5 ≠ initialRecordingState := by
  refine ⟨rfl, rfl, ?_⟩
  decide

/-- C9 (amended): `RecordingState.update_activity` unconditionally sets
`last_activity_time` to now and changes no other field; the dungeon-active
guard lives at the call site (`process_line`), not in `update_activity`. -/
theorem c9_update_activity_unconditional (st : RecordingState) (now : Nat) :
    (st.update_activity now).last_activity_time = some now ∧
    (st.update_activity now).recording = st.recording ∧
    (st.update_activity now).recording_start_time = st.recording_start_time ∧
    (st.update_activity now).encounter_active = st.encounter_active ∧
    (st.update_activity now).boss_id = st.boss_id ∧
    (st.update_activity now).boss_name = st.boss_name ∧
    (st.update_activity now).difficulty_id = st.difficulty_id ∧
    (st.update_activity now).instance_id = st.instance_id ∧
    (st.update_activity now).encounter_start_time = st.encounter_start_time ∧
    (st.update_activity now).dungeon_active = st.dungeon_active ∧
    (st.update_activity now).dungeon_id = st.dungeon_id ∧
    (st.update_activity now).dungeon_name = st.dungeon_name ∧
    (st.update_activity now).dungeon_level = st.dungeon_level ∧
    (st.update_activity now).dungeon_start_time = st.dungeon_start_time ∧
    (st.update_activity now).dungeon_start_timestamp =
      st.dungeon_start_timestamp :=
  ⟨rfl, rfl, rfl, rfl, rfl, rfl, rfl, rfl, rfl, rfl, rfl, rfl, rfl, rfl, rfl⟩

/-! ## C8 — idle detection and the monitor tick -/

/-- C8: for any state whose `last_activity_time` holds a positive
timestamp, `is_dungeon_idle timeout` is true iff a dungeon is active and
`now - last_activity_time > timeout`; consequently a monitor tick (with a
registered callback) invokes the timeout callback when the last activity
is older than the configured timeout and does not when it is more
recent. -/
theorem c8_idle_detection (cfg : Config) (st : RecordingState)
    (now t : Nat) (hc : Bool) (hlat : st.last_activity_time = some t)
    (ht : 0 < t) (hcb : hc = true) :
    (st.is_dungeon_idle now cfg.DUNGEON_TIMEOUT_SECONDS = true ↔
      st.dungeon_active = true ∧
        (t : Int) + cfg.DUNGEON_TIMEOUT_SECONDS < now) ∧
    (st.dungeon_active = true →
      (t : Int) + cfg.DUNGEON_TIMEOUT_SECONDS < now →
      monitorTick cfg st now hc = true) ∧
    ((now : Int) - t < cfg.DUNGEON_TIMEOUT_SECONDS →
      monitorTick cfg st now hc = false) := by
  have hfalsy : pyFalsyTime st.last_activity_time = false := by
    rw [hlat]
    simp only [pyFalsyTime, beq_eq_false_iff_ne, ne_eq]
    omega
  have hidle : st.is_dungeon_idle now cfg.DUNGEON_TIMEOUT_SECONDS =
      (st.dungeon_active &&
        decide ((now : Int) - t > cfg.DUNGEON_TIMEOUT_SECONDS)) := by
    rw [RecordingState.is_dungeon_idle, hfalsy, hlat]
    cases st.dungeon_active <;> simp
  refine ⟨?_, ?_, ?_⟩
  · rw [hidle]
    cases hda : st.dungeon_active
    · simp
    · simp
      omega
  · intro hda hlt
    rw [monitorTick, hda, hidle, hda, hcb]
    simp only [Bool.true_and, if_true, decide_eq_true_eq]
    rw [if_pos]
    omega
  · intro hlt
    rw [monitorTick, hidle]
    cases hda : st.dungeon_active
    · simp
    · simp only [Bool.true_and, if_true]
      rw [if_neg]
      simp only [decide_eq_true_eq]
      omega

/-- C8 witness: in the dungeon-active fixture (last activity at 100,
timeout 120) a tick at time 300 invokes the callback, and at time 150 it
does not. -/
theorem c8_idle_detection_witness :
    monitorTick testConfig dungeonActiveState 300 true = true ∧
    monitorTick testConfig dungeonActiveState 150 true = false :=
  ⟨(c8_idle_detection testConfig dungeonActiveState 300 100 true rfl
      (by decide) rfl).2.1 rfl (by decide),
   (c8_idle_detection testConfig dungeonActiveState 150 100 true rfl
      (by decide) rfl).2.2 (by decide)⟩

/-! ## C6 — short-recording policy -/

/-- C6: for a recording shorter than the configured minimum, with
`delete_short_recordings = true` the located latest file is deleted and no
rename is ever issued; with the flag false no file operation happens at
all and the step reports success. -/
theorem c6_short_recording_policy (cfg : Config) (fs : FS)
    (info : Option RecInfo) (dur : Nat)
    (hshort : dur < cfg.MIN_RECORDING_DURATION) :
    (∀ p, cfg.DELETE_SHORT_RECORDINGS = true → fs.latest = some p →
      fs.fileExists p = true →
      Action.deleteFile p ∈ (process_recording_file cfg fs info dur).2 ∧
      ∀ s d, Action.renameFile s d ∉ (process_recording_file cfg fs info dur).2) ∧
    (cfg.DELETE_SHORT_RECORDINGS = false →
      process_recording_file cfg fs info dur = (true, [])) := by
  have hmain : process_recording_file cfg fs info dur =
      handle_short_recording cfg fs dur := by
    rw [process_recording_file, if_pos hshort]
  constructor
  · intro p hdel hlat hex
    rw [hmain, handle_short_recording, hdel, hlat]
    simp [delete_recording, hex]
  · intro hdel
    rw [hmain, handle_short_recording, hdel]
    simp

/-- C6 witness: a 2-second recording (minimum 5) with the delete flag on
and latest file `rec.mp4` present gets a delete action and no rename. -/
theorem c6_short_recording_policy_witness :
    Action.deleteFile "rec.mp4" ∈
      (process_recording_file testConfig
        ⟨some "rec.mp4", fun p => p == "rec.mp4", true, "2025-01-01",
          "20-00-00"⟩ none 2).2 :=
  ((c6_short_recording_policy testConfig
      ⟨some "rec.mp4", fun p => p == "rec.mp4", true, "2025-01-01",
        "20-00-00"⟩ none 2 (by decide)).1 "rec.mp4" rfl rfl (by decide)).1

/-! ## C10 — notification after short-recording deletion -/

/-- C10: when a short recording is deleted (difficulty enabled, recorder
stop succeeds, duration below the minimum, delete flag on, latest file
located and present), the encounter-end background task reports success
and fires the recording-saved notification, exactly as the same task does
after a successful rename (third conjunct); when no file can be located,
it reports failure and sends no notification. -/
theorem c10_short_delete_notifies (cfg : Config) (obs : ObsRec) (fs : FS)
    (bi : BossInfo) (dur : Nat)
    (henab : cfg.is_difficulty_enabled bi.difficulty_id = true)
    (hstop : obs.stopOk = true) :
    (dur < cfg.MIN_RECORDING_DURATION → cfg.DELETE_SHORT_RECORDINGS = true →
      ∀ p, fs.latest = some p → fs.fileExists p = true →
        (process_encounter_end_thread cfg obs fs bi dur true).1 = true ∧
        (process_encounter_end_thread cfg obs fs bi dur true).2.2 = true) ∧
    (dur < cfg.MIN_RECORDING_DURATION → cfg.DELETE_SHORT_RECORDINGS = true →
      fs.latest = none →
        (process_encounter_end_thread cfg obs fs bi dur true).1 = false ∧
        (process_encounter_end_thread cfg obs fs bi dur true).2.2 = false) ∧
    (cfg.MIN_RECORDING_DURATION ≤ dur → ∀ p, fs.latest = some p →
      fs.fileExists p = true → fs.stable = true →
        (process_encounter_end_thread cfg obs fs bi dur true).1 = true ∧
        (process_encounter_end_thread cfg obs fs bi dur true).2.2 = true) := by
  have hthread : ∀ b l,
      process_encounter_end cfg obs fs bi dur = (b, l) →
      process_encounter_end_thread cfg obs fs bi dur true = (b, l, b) := by
    intro b l h
    rw [process_encounter_end_thread, h]
    simp
  have hend : process_encounter_end cfg obs fs bi dur =
      (let r := process_recording_file cfg fs (some (RecInfo.boss bi)) dur
       (r.1, Action.obsStop :: Action.sleep cfg.RENAME_DELAY :: r.2)) := by
    rw [process_encounter_end, henab, hstop]
    simp
  refine ⟨?_, ?_, ?_⟩
  · intro hshort hdel p hlat hex
    have hfile : process_recording_file cfg fs (some (RecInfo.boss bi)) dur =
        (true, [Action.findLatest, Action.deleteFile p]) := by
      rw [process_recording_file, if_pos hshort, handle_short_recording,
        hdel, hlat]
      simp [delete_recording, hex]
    rw [hthread _ _ (by rw [hend, hfile])]
    simp
  · intro hshort hdel hlat
    have hfile : process_recording_file cfg fs (some (RecInfo.boss bi)) dur =
        (false, [Action.findLatest]) := by
      rw [process_recording_file, if_pos hshort, handle_short_recording,
        hdel, hlat]
      simp
    rw [hthread _ _ (by rw [hend, hfile])]
    simp
  · intro hlong p hlat hex hstab
    have hfile : (process_recording_file cfg fs (some (RecInfo.boss bi)) dur).1 =
        true := by
      rw [process_recording_file, if_neg (by omega), hlat]
      simp [validate_file_stable, hex, hstab, rename_recording]
    rw [process_encounter_end_thread, hend]
    simp [hfile]

/-- C10 witness: duration 2 (minimum 5), delete flag on, `rec.mp4` located
and present — the background task succeeds and notifies. -/
theorem c10_short_delete_notifies_witness :
    (process_encounter_end_thread testConfig testObs
      ⟨some "rec.mp4", fun p => p == "rec.mp4", true, "2025-01-01",
        "20-00-00"⟩ ⟨1234, "Test Boss", 3, 2000, "10:00:00"⟩ 2 true).2.2 =
      true :=
  ((c10_short_delete_notifies testConfig testObs
      ⟨some "rec.mp4", fun p => p == "rec.mp4", true, "2025-01-01",
        "20-00-00"⟩ ⟨1234, "Test Boss", 3, 2000, "10:00:00"⟩ 2 (by decide)
      rfl).1 (by decide) rfl "rec.mp4" rfl (by decide)).2

/-! ## Dispatch lemmas for `process_line` -/

/-- A line decoding to an `ENCOUNTER_START` event is dispatched to the
encounter-start handler after the activity stamp. -/
lemma process_line_enc_start (cfg : Config) (st : RecordingState)
    (now : Nat) (line : String)
    (hty : (combatEvent line).event_type = "ENCOUNTER_START") :
    process_line cfg st now line =
      handle_encounter_start cfg
        (if st.dungeon_active then st.update_activity now else st) now
        (combatEvent line) := by
  have hval : (combatEvent line).is_valid = true := by
    unfold CombatEventData.is_valid
    rw [hty]
    decide
  have h1 : (combatEvent line).is_dungeon_start = false := by
    unfold CombatEventData.is_dungeon_start
    rw [hty]
    decide
  have h2 : (combatEvent line).is_dungeon_end = false := by
    unfold CombatEventData.is_dungeon_end
    rw [hty]
    decide
  have h3 : (combatEvent line).is_zone_change = false := by
    unfold CombatEventData.is_zone_change
    rw [hty]
    decide
  have h4 : (combatEvent line).is_encounter_start = true := by
    unfold CombatEventData.is_encounter_start
    rw [hty]
    decide
  simp [process_line, hval, h1, h2, h3, h4]

/-- A line decoding to an `ENCOUNTER_END` event is dispatched to the
encounter-end handler after the activity stamp. -/
lemma process_line_enc_end (cfg : Config) (st : RecordingState)
    (now : Nat) (line : String)
    (hty : (combatEvent line).event_type = "ENCOUNTER_END") :
    process_line cfg st now line =
      handle_encounter_end cfg
        (if st.dungeon_active then st.update_activity now else st) now
        (combatEvent line) := by
  have hval : (combatEvent line).is_valid = true := by
    unfold CombatEventData.is_valid
    rw [hty]
    decide
  have h1 : (combatEvent line).is_dungeon_start = false := by
    unfold CombatEventData.is_dungeon_start
    rw [hty]
    decide
  have h2 : (combatEvent line).is_dungeon_end = false := by
    unfold CombatEventData.is_dungeon_end
    rw [hty]
    decide
  have h3 : (combatEvent line).is_zone_change = false := by
    unfold CombatEventData.is_zone_change
    rw [hty]
    decide
  have h4 : (combatEvent line).is_encounter_start = false := by
    unfold CombatEventData.is_encounter_start
    rw [hty]
    decide
  have h5 : (combatEvent line).is_encounter_end = true := by
    unfold CombatEventData.is_encounter_end
    rw [hty]
    decide
  simp [process_line, hval, h1, h2, h3, h4, h5]

/-! ## C1 — exclusivity on ENCOUNTER_START during a dungeon -/

/-- C1 counterexample: with a dungeon active but the recording flag not
yet set (recorder start pending or failed), processing an
`ENCOUNTER_START` line does mutate State — the encounter starts while the
dungeon is still active, breaking at-most-one-activity — and the spawned
task does issue a recorder start call. -/
theorem c1_encounter_start_during_dungeon_not_ignored :
    dungeonActiveState.dungeon_active = true ∧
    (process_line testConfig dungeonActiveState 110 scenarioALine).state ≠
      dungeonActiveState ∧
    (process_line testConfig dungeonActiveState 110
        scenarioALine).state.encounter_active = true ∧
    (process_line testConfig dungeonActiveState 110
        scenarioALine).state.dungeon_active = true ∧
    (process_line testConfig dungeonActiveState 110 scenarioALine).tasks =
      [SpawnedTask.encounterStart ⟨1234, "Test Boss", 3, 2000, "10:00:00"⟩] ∧
    Action.obsStart ∈
      (process_encounter_start_thread testConfig testObs
        (process_line testConfig dungeonActiveState 110 scenarioALine).state
        111 ⟨1234, "Test Boss", 3, 2000, "10:00:00"⟩).2 := by
  decide

/-- C1 (amended): the encounter-start guard compares `State.is_recording`,
not `dungeon_active`: while a dungeon is active AND the recording flag is
set, an `ENCOUNTER_START` line changes nothing except the
`last_activity_time` stamp and spawns no recorder-start task; with the
recording flag false the encounter is started anyway (see the
counterexample), so at-most-one-active-activity is not an invariant. -/
theorem c1_exclusivity_guarded_by_is_recording (cfg : Config)
    (st : RecordingState) (now : Nat) (line : String)
    (hda : st.dungeon_active = true) (hrec : st.recording = true)
    (hty : (combatEvent line).event_type = "ENCOUNTER_START") :
    process_line cfg st now line = ⟨st.update_activity now, [], []⟩ := by
  rw [process_line_enc_start cfg st now line hty, if_pos hda]
  have hisrec : (st.update_activity now).is_recording = true := by
    simp [RecordingState.is_recording, RecordingState.update_activity,
      hrec, hda]
  rw [handle_encounter_start, if_pos hisrec]

/-- C1 witness: dungeon active and recording at time 101; the scenario-A
`ENCOUNTER_START` line only refreshes the activity stamp. -/
theorem c1_exclusivity_guarded_by_is_recording_witness :
    process_line testConfig dungeonRecordingState 110 scenarioALine =
      ⟨dungeonRecordingState.update_activity 110, [], []⟩ :=
  c1_exclusivity_guarded_by_is_recording testConfig dungeonRecordingState
    110 scenarioALine rfl rfl (by decide)

/-! ## C2 — end-to-end scenario A -/

/-- C2: for the scenario-A line, with difficulty 3 enabled, no name
override for boss 1234 and a succeeding recorder start, the decoder
yields BossInfo{1234, "Test Boss", 3, 2000}, the synchronous path starts
the encounter and spawns the recording-start task, the task invokes the
recorder start, and `State.is_recording` becomes true. -/
theorem c2_scenario_a (cfg : Config) (obs : ObsRec) (now now2 : Nat)
    (henab : cfg.is_difficulty_enabled 3 = true)
    (hstart : obs.startOk = true)
    (hover : cfg.BOSS_NAME_OVERRIDES 1234 = none) :
    (combatEvent scenarioALine).get_boss_info =
      some ⟨1234, "Test Boss", 3, 2000, "10:00:00"⟩ ∧
    process_line cfg initialRecordingState now scenarioALine =
      ⟨initialRecordingState.start_encounter now 1234 "Test Boss" 3 2000,
        [Action.emit "ENCOUNTER_START"],
        [SpawnedTask.encounterStart ⟨1234, "Test Boss", 3, 2000, "10:00:00"⟩]⟩ ∧
    (process_encounter_start_thread cfg obs
        (initialRecordingState.start_encounter now 1234 "Test Boss" 3 2000)
        now2 ⟨1234, "Test Boss", 3, 2000, "10:00:00"⟩).2 = [Action.obsStart] ∧
    (process_encounter_start_thread cfg obs
        (initialRecordingState.start_encounter now 1234 "Test Boss" 3 2000)
        now2 ⟨1234, "Test Boss", 3, 2000, "10:00:00"⟩).1.is_recording =
      true := by
  have hbi : (combatEvent scenarioALine).get_boss_info =
      some ⟨1234, "Test Boss", 3, 2000, "10:00:00"⟩ := by decide
  have hstartok : process_encounter_start cfg obs
      ⟨1234, "Test Boss", 3, 2000, "10:00:00"⟩ = (true, [Action.obsStart]) := by
    rw [process_encounter_start]
    simp only [henab, hstart]
    simp
  refine ⟨hbi, ?_, ?_, ?_⟩
  · rw [process_line_enc_start cfg initialRecordingState now scenarioALine
      (by decide)]
    rw [if_neg (by decide)]
    rw [handle_encounter_start, if_neg (by decide), hbi]
    simp [hover]
  · rw [process_encounter_start_thread, hstartok]
  · rw [process_encounter_start_thread, hstartok]
    simp [RecordingState.is_recording, RecordingState.start_recording,
      RecordingState.start_encounter]

/-- C2 witness: the scenario at the concrete test configuration and a
succeeding recorder. -/
theorem c2_scenario_a_witness :
    (process_encounter_start_thread testConfig testObs
        (initialRecordingState.start_encounter 0 1234 "Test Boss" 3 2000)
        1 ⟨1234, "Test Boss", 3, 2000, "10:00:00"⟩).1.is_recording = true :=
  (c2_scenario_a testConfig testObs 0 1 (by decide) rfl rfl).2.2.2

/-! ## C5 — grace period on the synchronous path -/

/-- C5 counterexample: processing an `ENCOUNTER_END` line performs the
3-second grace-period sleep on the synchronous decode path itself. -/
theorem c5_sync_path_performs_grace_sleep :
    Action.sleep 3 ∈
      (process_line testConfig encounterActiveState 430 scenarioBLine).actions := by
  decide

/-- C5 (amended): the recorder stop, rename-delay wait and file
post-processing do run only on the spawned background task, and the
recording start is likewise spawned, but the fixed 3-second grace wait of
the `ENCOUNTER_END` handler runs synchronously on the decode path before
the task is spawned, so that wait does delay decoding of subsequent
lines. -/
theorem c5_grace_wait_sync_stop_async (cfg : Config) (obs : ObsRec)
    (fs : FS) (st : RecordingState) (now : Nat) (line : String)
    (hea : st.encounter_active = true) (hda : st.dungeon_active = false)
    (hty : (combatEvent line).event_type = "ENCOUNTER_END")
    (henab : cfg.is_difficulty_enabled (st.difficulty_id.getD 0) = true)
    (hstop : obs.stopOk = true) :
    process_line cfg st now line =
      ⟨initialRecordingState,
        [Action.emit "ENCOUNTER_END", Action.sleep 3],
        [SpawnedTask.encounterEnd
          ⟨st.boss_id.getD 0, pyOrStr st.boss_name "Unknown",
            st.difficulty_id.getD 0, st.instance_id.getD 0,
            (combatEvent line).timestamp⟩
          (st.get_encounter_duration now)]⟩ ∧
    Action.obsStop ∉ (process_line cfg st now line).actions ∧
    Action.obsStop ∈
      (process_encounter_end_thread cfg obs fs
        ⟨st.boss_id.getD 0, pyOrStr st.boss_name "Unknown",
          st.difficulty_id.getD 0, st.instance_id.getD 0,
          (combatEvent line).timestamp⟩
        (st.get_encounter_duration now) true).2.1 ∧
    Action.sleep cfg.RENAME_DELAY ∈
      (process_encounter_end_thread cfg obs fs
        ⟨st.boss_id.getD 0, pyOrStr st.boss_name "Unknown",
          st.difficulty_id.getD 0, st.instance_id.getD 0,
          (combatEvent line).timestamp⟩
        (st.get_encounter_duration now) true).2.1 := by
  have hsync : process_line cfg st now line =
      ⟨initialRecordingState,
        [Action.emit "ENCOUNTER_END", Action.sleep 3],
        [SpawnedTask.encounterEnd
          ⟨st.boss_id.getD 0, pyOrStr st.boss_name "Unknown",
            st.difficulty_id.getD 0, st.instance_id.getD 0,
            (combatEvent line).timestamp⟩
          (st.get_encounter_duration now)]⟩ := by
    rw [process_line_enc_end cfg st now line hty, if_neg (by simp [hda])]
    rw [handle_encounter_end, if_neg (by simp [hea])]
    rfl
  have hthread : (process_encounter_end_thread cfg obs fs
      ⟨st.boss_id.getD 0, pyOrStr st.boss_name "Unknown",
        st.difficulty_id.getD 0, st.instance_id.getD 0,
        (combatEvent line).timestamp⟩
      (st.get_encounter_duration now) true).2.1 =
      Action.obsStop :: Action.sleep cfg.RENAME_DELAY ::
        (process_recording_file cfg fs
          (some (RecInfo.boss
            ⟨st.boss_id.getD 0, pyOrStr st.boss_name "Unknown",
              st.difficulty_id.getD 0, st.instance_id.getD 0,
              (combatEvent line).timestamp⟩))
          (st.get_encounter_duration now)).2 := by
    rw [process_encounter_end_thread, process_encounter_end]
    simp only [henab, hstop]
    simp
  refine ⟨hsync, ?_, ?_, ?_⟩
  · rw [hsync]
    show Action.obsStop ∉ [Action.emit "ENCOUNTER_END", Action.sleep 3]
    decide
  · rw [hthread]
    simp
  · rw [hthread]
    simp

/-- C5 witness: the amended statement at the encounter fixture and the
scenario-B line. -/
theorem c5_grace_wait_sync_stop_async_witness :
    Action.sleep 3 ∈
      (process_line testConfig encounterActiveState 430 scenarioBLine).actions ∧
    Action.obsStop ∉
      (process_line testConfig encounterActiveState 430 scenarioBLine).actions := by
  have h := c5_grace_wait_sync_stop_async testConfig testObs
    ⟨some "rec.mp4", fun p => p == "rec.mp4", true, "2025-01-01",
      "20-00-00"⟩ encounterActiveState 430 scenarioBLine rfl rfl (by decide)
    (by decide) rfl
  refine ⟨?_, h.2.1⟩
  rw [h.1]
  decide

/-! ## C7 — decoder totality and validity -/

/-- The uppercased, stripped first field is a nonempty string exactly when
the stripped field is nonempty. -/
lemma strMk_upper_ne_empty (l : List Char) :
    (String.mk (pyUpper l) != "") = true ↔ l ≠ [] := by
  rw [bne_iff_ne, ne_eq, ne_eq]
  constructor
  · intro h hl
    exact h (by rw [hl]; rfl)
  · intro h hs
    apply h
    have hd := congrArg String.data hs
    simpa [pyUpper] using hd

/-- C7: the decoder is a total function on raw lines (every caught
`ValueError`/`StopIteration` is an explicit branch of `combatEvent`), the
decoded event is valid exactly when the line splits on a run of two
consecutive spaces, the remainder yields a CSV record with a first field,
and that field is nonempty after trimming; and every invalid line is
silently dropped by `process_line` without any state change, action or
spawned task. -/
theorem c7_decoder_validity (line : String) :
    ((combatEvent line).is_valid = true ↔
      ∃ ts rest, splitTwoSpace line.data = some (ts, rest) ∧
        ∃ f0 fs, csvFirstRecord rest = some (f0 :: fs) ∧ pyStrip f0 ≠ []) ∧
    ((combatEvent line).is_valid = false →
      ∀ cfg st now, process_line cfg st now line = ⟨st, [], []⟩) := by
  constructor
  · rcases h1 : splitTwoSpace line.data with _ | ⟨ts, rest⟩
    · simp [combatEvent, h1, CombatEventData.is_valid]
    · rcases h2 : csvFirstRecord rest with _ | fl
      · simp [combatEvent, h1, h2, CombatEventData.is_valid]
      · cases fl with
        | nil => simp [combatEvent, h1, h2, CombatEventData.is_valid]
        | cons f0 fs =>
          simp only [combatEvent, h1, h2, CombatEventData.is_valid]
          rw [strMk_upper_ne_empty]
          constructor
          · intro h
            exact ⟨ts, rest, rfl, f0, fs, h2, h⟩
          · rintro ⟨ts', rest', hsp, f0', fs', hrec, hne⟩
            simp only [Option.some.injEq, Prod.mk.injEq] at hsp
            obtain ⟨h3, h4⟩ := hsp
            subst h4
            rw [h2] at hrec
            simp only [Option.some.injEq, List.cons.injEq] at hrec
            obtain ⟨h5, h6⟩ := hrec
            subst h5
            exact hne
  · intro hinv cfg st now
    simp [process_line, hinv]

/-- C7 witness: a line without the two-space separator is invalid and is
dropped by `process_line` with no state change. -/
theorem c7_decoder_validity_witness :
    process_line testConfig initialRecordingState 0 "garbage line" =
      ⟨initialRecordingState, [], []⟩ :=
  (c7_decoder_validity "garbage line").2 (by decide) testConfig
    initialRecordingState 0

/-! ## C3 — filename collision resolution -/

/-- Boss metadata used in the collision fixtures. -/
def c3Boss : BossInfo := ⟨1234, "Test Boss", 3, 2000, "10:00:00"⟩

/-- Directory in which only the base candidate name exists. -/
def c3ExistsBase : String → Bool := fun p =>
  p == "2025-01-01_20-00-00_Test_Boss_Mythic.mp4"

/-- Directory in which the base candidate and every `_attempt1`…
`_attempt10` candidate (max_rename_attempts = 10) exist. -/
def c3ExistsAll : String → Bool := fun p =>
  p == "2025-01-01_20-00-00_Test_Boss_Mythic.mp4" ||
  (List.range 10).any (fun n =>
    p == "2025-01-01_20-00-00_Test_Boss_attempt" ++ toString (n + 1) ++
      "_Mythic.mp4")

/-- C3 evaluation: on the first collision the rename targets the
`_attempt1` name and no existing file is touched, as the claim says; but
when the base name and all ten attempt names exist, `rename_recording`
still issues `Path.rename(source → base candidate)` with the target
already existing — under POSIX rename semantics this silently replaces
the existing file, and the source is not left unrenamed. -/
theorem c3_rename_collision_eval :
    (rename_recording testConfig
        ⟨some "rec.mp4", c3ExistsBase, true, "2025-01-01", "20-00-00"⟩
        "rec.mp4" (some (RecInfo.boss c3Boss)) =
      (some "2025-01-01_20-00-00_Test_Boss_attempt1_Mythic.mp4",
        [Action.renameFile "rec.mp4"
          "2025-01-01_20-00-00_Test_Boss_attempt1_Mythic.mp4"]) ∧
     c3ExistsBase "2025-01-01_20-00-00_Test_Boss_attempt1_Mythic.mp4" =
       false) ∧
    (rename_recording testConfig
        ⟨some "rec.mp4", c3ExistsAll, true, "2025-01-01", "20-00-00"⟩
        "rec.mp4" (some (RecInfo.boss c3Boss)) =
      (some "2025-01-01_20-00-00_Test_Boss_Mythic.mp4",
        [Action.renameFile "rec.mp4"
          "2025-01-01_20-00-00_Test_Boss_Mythic.mp4"]) ∧
     c3ExistsAll "2025-01-01_20-00-00_Test_Boss_Mythic.mp4" = true) := by
  decide

end WowRecorder
